import Mathlib

/-!
Verification of core behaviors of the yagna provider agent: the zksync payment-driver
numeric helpers (`core/payment-driver/zksync/src/utils.rs`), the market matcher and
its offer-propagation handlers (`core/market/decentralized/src/matcher/matcher.rs`),
and the provider payments engine (`agent/provider/src/payments/payments.rs`).

Money amounts (`BigDecimal`) inside the payments engine are embedded as exact
rationals (`ℚ`); the zksync numeric helpers embed `BigDecimal` itself as an
integer-digits/scale pair together with the bigdecimal crate's precision-capped long
division. `BigUint` is embedded as `ℕ`, `BigInt` as `ℤ`, timestamps as `ℤ`, and actor
handlers as pure functions from the actor state and message to the successor state
plus an explicit outcome describing the reply and any spawned background work.
-/

namespace Yagna

/-! ## zksync payment-driver utils (`core/payment-driver/zksync/src/utils.rs`) -/

/-- `PRECISION` from utils.rs: `1_000_000_000_000_000_000` (`10^18`). -/
def PRECISION : ℕ := 1000000000000000000

/-- `DEFAULT_PRECISION` of the bigdecimal crate: its `Div` computes quotients to at
most 100 significant digits. -/
def DEFAULT_PRECISION : ℕ := 100

/-- A bigdecimal `BigDecimal` value: `int_val * 10 ^ (-scale)`. -/
structure BigDec where
  int_val : ℤ
  scale : ℤ
  deriving DecidableEq

/-- `ToBigInt for BigDecimal` (`with_scale(0).int_val`): a positive scale drops the
fractional digits by integer division (truncation toward zero); a negative scale
widens by powers of ten. -/
def BigDec.to_bigint (d : BigDec) : ℤ :=
  if 0 ≤ d.scale then Int.tdiv d.int_val (10 ^ d.scale.toNat)
  else d.int_val * 10 ^ (-d.scale).toNat

/-- `count_decimal_digits` from the bigdecimal crate: the number of decimal digits of
the integer, here by repeated division by ten (the crate estimates from the bit
length and corrects by comparison, with the same result). Structural on fuel; the
digit count of `n ≥ 1` never exceeds `n`. -/
def count_decimal_digits_aux : ℕ → ℕ → ℕ
  | 0, _ => 0
  | fuel + 1, n => if n = 0 then 0 else count_decimal_digits_aux fuel (n / 10) + 1

/-- Digit count with the crate's convention that zero has one digit. -/
def count_decimal_digits (n : ℕ) : ℕ :=
  if n = 0 then 1 else count_decimal_digits_aux n n

/-- The normalization loop of the bigdecimal crate's `impl_division`: multiply `num`
by ten until it is at least `den`, incrementing `scale` each time. The source's
unguarded while loop terminates for `num ≥ 1` within the digit count of `den`
iterations, so the fuel `den` supplied by `impl_division_core` is conservative. -/
def div_normalize (den : ℕ) : ℕ → ℕ → ℤ → ℕ × ℤ
  | 0, num, scale => (num, scale)
  | fuel + 1, num, scale =>
    if num < den then div_normalize den fuel (num * 10) (scale + 1) else (num, scale)

/-- The digit-producing loop of `impl_division`: while the remainder is non-zero and
the precision budget is not exhausted (fuel is `max_precision - precision`), append
the next quotient digit and shift the remainder by one decimal. Returns the final
(quotient, remainder, scale). -/
def div_digits (den : ℕ) : ℕ → ℕ → ℕ → ℤ → ℕ × ℕ × ℤ
  | 0, quotient, remainder, scale => (quotient, remainder, scale)
  | fuel + 1, quotient, remainder, scale =>
    if remainder = 0 then (quotient, remainder, scale)
    else
      div_digits den fuel (quotient * 10 + remainder / den) (remainder % den * 10) (scale + 1)

/-- `impl_division` of the bigdecimal crate up to (but not including) its final
rounding step: zero check, normalization, first `div_rem` with its exact early
return, then the precision-capped digit loop. Returns (quotient, remainder, scale);
the remainder is zero exactly when the division was exact within the cap. -/
def impl_division_core (num den : ℕ) (scale : ℤ) (max_precision : ℕ) : ℕ × ℕ × ℤ :=
  if num = 0 then (0, 0, scale)
  else
    let ns := div_normalize den den num scale
    if ns.1 % den = 0 then (ns.1 / den, 0, ns.2)
    else
      div_digits den (max_precision - count_decimal_digits (ns.1 / den)) (ns.1 / den)
        (ns.1 % den * 10) ns.2

/-- `impl_division` of the bigdecimal crate (`Div for BigDecimal`, positive
operands): when the capped loop leaves a remainder, the truncated next digit is fed
to `get_rounding_term`, which maps zero to zero (explicit check in the crate) and
whose non-zero behavior is external-crate code abstracted as the `rounding_term`
parameter. -/
def impl_division (rounding_term : ℕ → ℕ) (num den : ℕ) (scale : ℤ)
    (max_precision : ℕ) : ℕ × ℤ :=
  let c := impl_division_core num den scale max_precision
  if c.2.1 = 0 then (c.1, c.2.2)
  else (c.1 + (if c.2.1 / den = 0 then 0 else rounding_term (c.2.1 / den)), c.2.2)

/-- `big_uint_to_big_dec` from utils.rs: parse the decimal string of `v` (exact for a
natural number, so the error path is dead) and divide by `PRECISION` with the
bigdecimal `Div`: the scales subtract to `0` and the magnitudes go through
`impl_division(v, PRECISION, 0, DEFAULT_PRECISION)`. -/
def big_uint_to_big_dec (rounding_term : ℕ → ℕ) (v : ℕ) : Except String BigDec :=
  Except.ok
    { int_val := ((impl_division rounding_term v PRECISION 0 DEFAULT_PRECISION).1 : ℤ),
      scale := (impl_division rounding_term v PRECISION 0 DEFAULT_PRECISION).2 }

/-- `big_dec_to_big_uint` from utils.rs: multiply by `PRECISION` (scales add, here
`scale + 0`), convert to a big integer (`to_bigint`, never `None`), then to an
unsigned one (`to_biguint`, which fails on a negative value). -/
def big_dec_to_big_uint (d : BigDec) : Except String ℕ :=
  let w : BigDec := { int_val := d.int_val * (PRECISION : ℤ), scale := d.scale }
  let i : ℤ := w.to_bigint
  if 0 ≤ i then Except.ok i.toNat else Except.error "Failed to convert to biguint"

instance exceptDecEq {ε α : Type} [DecidableEq ε] [DecidableEq α] :
    DecidableEq (Except ε α) := fun a b =>
  match a, b with
  | Except.ok x, Except.ok y =>
    if h : x = y then isTrue (by rw [h]) else isFalse (fun hc => h (Except.ok.inj hc))
  | Except.error e, Except.error f =>
    if h : e = f then isTrue (by rw [h]) else isFalse (fun hc => h (Except.error.inj hc))
  | Except.ok _, Except.error _ => isFalse (fun hc => Except.noConfusion hc)
  | Except.error _, Except.ok _ => isFalse (fun hc => Except.noConfusion hc)

theorem div_normalize_spec (den : ℕ) :
    ∀ (fuel num : ℕ) (scale : ℤ),
      ∃ j : ℕ, (div_normalize den fuel num scale).1 = num * 10 ^ j
        ∧ (div_normalize den fuel num scale).2 = scale + (j : ℤ) := by
  intro fuel
  induction fuel with
  | zero => intro num scale; exact ⟨0, by simp [div_normalize]⟩
  | succ fuel ih =>
    intro num scale
    by_cases hlt : num < den
    · obtain ⟨j, h1, h2⟩ := ih (num * 10) (scale + 1)
      refine ⟨j + 1, ?_, ?_⟩
      · simp only [div_normalize, if_pos hlt, h1]; ring
      · simp only [div_normalize, if_pos hlt, h2]; push_cast; ring
    · exact ⟨0, by simp [div_normalize, hlt]⟩

theorem div_digits_spec (den : ℕ) :
    ∀ (fuel quotient remainder : ℕ) (scale : ℤ),
      ∃ d : ℕ,
        (div_digits den fuel quotient remainder scale).2.2 = scale + (d : ℤ)
        ∧ (div_digits den fuel quotient remainder scale).1 * (10 * den)
            + (div_digits den fuel quotient remainder scale).2.1
          = (quotient * (10 * den) + remainder) * 10 ^ d := by
  intro fuel
  induction fuel with
  | zero => intro q r s; exact ⟨0, by simp [div_digits]⟩
  | succ fuel ih =>
    intro q r s
    by_cases hr : r = 0
    · exact ⟨0, by simp [div_digits, hr]⟩
    · obtain ⟨d, h1, h2⟩ := ih (q * 10 + r / den) (r % den * 10) (s + 1)
      have key : (q * 10 + r / den) * (10 * den) + r % den * 10
          = (q * (10 * den) + r) * 10 := by
        have hdm : r / den * den + r % den = r := Nat.div_add_mod' r den
        calc (q * 10 + r / den) * (10 * den) + r % den * 10
            = q * (10 * den) * 10 + (r / den * den + r % den) * 10 := by ring
          _ = q * (10 * den) * 10 + r * 10 := by rw [hdm]
          _ = (q * (10 * den) + r) * 10 := by ring
      refine ⟨d + 1, ?_, ?_⟩
      · simp only [div_digits, if_neg hr, h1]; push_cast; ring
      · simp only [div_digits, if_neg hr, h2, key]
        rw [pow_succ]; ring

theorem impl_division_core_exact (num den max_precision : ℕ)
    (h : (impl_division_core num den 0 max_precision).2.1 = 0) :
    ∃ m : ℕ, (impl_division_core num den 0 max_precision).1 * den = num * 10 ^ m
      ∧ (impl_division_core num den 0 max_precision).2.2 = (m : ℤ) := by
  by_cases hnum : num = 0
  · exact ⟨0, by simp [impl_division_core, hnum]⟩
  · obtain ⟨j, hn1, hn2⟩ := div_normalize_spec den den num 0
    by_cases hr0 : (div_normalize den den num 0).1 % den = 0
    · have hdvd : den ∣ (div_normalize den den num 0).1 := Nat.dvd_of_mod_eq_zero hr0
      have hq : (div_normalize den den num 0).1 / den * den = (div_normalize den den num 0).1 :=
        Nat.div_mul_cancel hdvd
      refine ⟨j, ?_, ?_⟩
      · simp only [impl_division_core, if_neg hnum, if_pos hr0]
        rw [hq, hn1]
      · simp only [impl_division_core, if_neg hnum, if_pos hr0]
        rw [hn2]; simp
    · have hcore : impl_division_core num den 0 max_precision
          = div_digits den
              (max_precision - count_decimal_digits ((div_normalize den den num 0).1 / den))
              ((div_normalize den den num 0).1 / den)
              ((div_normalize den den num 0).1 % den * 10)
              ((div_normalize den den num 0).2) := by
        simp only [impl_division_core, if_neg hnum, if_neg hr0]
      obtain ⟨d, hd1, hd2⟩ := div_digits_spec den
        (max_precision - count_decimal_digits ((div_normalize den den num 0).1 / den))
        ((div_normalize den den num 0).1 / den)
        ((div_normalize den den num 0).1 % den * 10)
        ((div_normalize den den num 0).2)
      rw [hcore] at h ⊢
      rw [h, add_zero] at hd2
      have hmod : (div_normalize den den num 0).1 / den * den
          + (div_normalize den den num 0).1 % den = (div_normalize den den num 0).1 :=
        Nat.div_add_mod' _ den
      have key : (div_normalize den den num 0).1 / den * (10 * den)
          + (div_normalize den den num 0).1 % den * 10
          = (div_normalize den den num 0).1 * 10 := by
        calc (div_normalize den den num 0).1 / den * (10 * den)
            + (div_normalize den den num 0).1 % den * 10
            = ((div_normalize den den num 0).1 / den * den
                + (div_normalize den den num 0).1 % den) * 10 := by ring
          _ = (div_normalize den den num 0).1 * 10 := by rw [hmod]
      rw [key] at hd2
      refine ⟨j + d, ?_, ?_⟩
      · have h10 : (div_digits den
            (max_precision - count_decimal_digits ((div_normalize den den num 0).1 / den))
            ((div_normalize den den num 0).1 / den)
            ((div_normalize den den num 0).1 % den * 10)
            ((div_normalize den den num 0).2)).1 * den * 10
            = num * 10 ^ (j + d) * 10 := by
          calc (div_digits den
              (max_precision - count_decimal_digits ((div_normalize den den num 0).1 / den))
              ((div_normalize den den num 0).1 / den)
              ((div_normalize den den num 0).1 % den * 10)
              ((div_normalize den den num 0).2)).1 * den * 10
              = (div_digits den
                  (max_precision - count_decimal_digits ((div_normalize den den num 0).1 / den))
                  ((div_normalize den den num 0).1 / den)
                  ((div_normalize den den num 0).1 % den * 10)
                  ((div_normalize den den num 0).2)).1 * (10 * den) := by ring
            _ = (div_normalize den den num 0).1 * 10 * 10 ^ d := hd2
            _ = num * 10 ^ j * 10 * 10 ^ d := by rw [hn1]
            _ = num * 10 ^ (j + d) * 10 := by rw [pow_add]; ring
        exact Nat.eq_of_mul_eq_mul_right (by norm_num) h10
      · rw [hd1, hn2]; push_cast; ring

theorem int_tdiv_natCast (a b : ℕ) : Int.tdiv (a : ℤ) (b : ℤ) = ((a / b : ℕ) : ℤ) := rfl

/-- C10 counterexample: at `v = 10^101 + 1` the bigdecimal division caps the quotient
at `DEFAULT_PRECISION = 100` significant digits (the truncated next digit is zero, so
no rounding unit is added), the decimal becomes exactly `10^83`, and the round trip
returns `10^101` — the trailing `1` is lost. -/
theorem big_uint_to_big_dec_round_trip_counterexample :
    (big_uint_to_big_dec (fun _ => 1) (10 ^ 101 + 1)).bind big_dec_to_big_uint
      = Except.ok (10 ^ 101)
    ∧ (10 ^ 101 : ℕ) ≠ 10 ^ 101 + 1 := by
  constructor
  · decide
  · decide

/-- C10 amended: the round trip yields `v` again whenever the capped long division of
`v` by `PRECISION` is exact within `DEFAULT_PRECISION` significant digits (its
remainder reaches zero), whatever the rounding summand for inexact divisions is. -/
theorem big_uint_to_big_dec_round_trip_exact (rounding_term : ℕ → ℕ) (v : ℕ)
    (h : (impl_division_core v PRECISION 0 DEFAULT_PRECISION).2.1 = 0) :
    (big_uint_to_big_dec rounding_term v).bind big_dec_to_big_uint = Except.ok v := by
  obtain ⟨m, hm1, hm2⟩ := impl_division_core_exact v PRECISION DEFAULT_PRECISION h
  have hdiv : impl_division rounding_term v PRECISION 0 DEFAULT_PRECISION
      = ((impl_division_core v PRECISION 0 DEFAULT_PRECISION).1,
         (impl_division_core v PRECISION 0 DEFAULT_PRECISION).2.2) := by
    simp only [impl_division, if_pos h]
  have hi : Int.tdiv
      (((impl_division_core v PRECISION 0 DEFAULT_PRECISION).1 : ℤ) * (PRECISION : ℤ))
      (10 ^ m) = (v : ℤ) := by
    have h1 : ((impl_division_core v PRECISION 0 DEFAULT_PRECISION).1 : ℤ) * (PRECISION : ℤ)
        = (((impl_division_core v PRECISION 0 DEFAULT_PRECISION).1 * PRECISION : ℕ) : ℤ) := by
      push_cast; ring
    have h2 : ((10 : ℤ) ^ m) = (((10 ^ m : ℕ)) : ℤ) := by push_cast; ring
    rw [h1, h2, int_tdiv_natCast, hm1, Nat.mul_div_cancel v (by positivity)]
  simp only [big_uint_to_big_dec, hdiv, Except.bind, big_dec_to_big_uint, BigDec.to_bigint, hm2]
  rw [if_pos (Int.natCast_nonneg m), Int.toNat_natCast, hi,
    if_pos (Int.natCast_nonneg v), Int.toNat_natCast]

/-- Witness for the amended C10 at `v = 3` (the division `3 / 10^18` is exact). -/
theorem big_uint_to_big_dec_round_trip_exact_witness :
    (big_uint_to_big_dec (fun _ => 0) 3).bind big_dec_to_big_uint = Except.ok 3 :=
  big_uint_to_big_dec_round_trip_exact (fun _ => 0) 3 (by decide)

/-- `increase_least_significant_digit` from utils.rs: scan the little-endian base-10
digits for the first non-zero digit at index `i` and add `10^i`; a zero amount
(no non-zero digit) is returned unchanged. -/
def increase_least_significant_digit (amount : ℕ) : ℕ :=
  match (Nat.digits 10 amount).findIdx? (fun d => d != 0) with
  | some i => amount + 10 ^ i
  | none => amount

/-- The retry loop of `pack_up` from utils.rs. The zksync library predicate
`is_token_amount_packable` is a parameter, and the number of loop iterations is
bounded by explicit fuel (the source loop has no bound of its own). -/
def pack_up_loop (is_packable : ℕ → Bool) (amount : ℕ) : ℕ → ℕ → Option ℕ
  | 0, _ => none
  | fuel + 1, packable_amount =>
    if packable_amount < amount || !is_packable packable_amount then
      pack_up_loop is_packable amount fuel (increase_least_significant_digit packable_amount)
    else
      some packable_amount

/-- `pack_up` from utils.rs: start from the zksync library's
`closest_packable_token_amount` (a parameter here) and increase the least significant
digit until the amount is at least the requested one and packable. -/
def pack_up (closest_packable : ℕ → ℕ) (is_packable : ℕ → Bool) (fuel : ℕ)
    (amount : ℕ) : Option ℕ :=
  pack_up_loop is_packable amount fuel (closest_packable amount)

theorem increase_least_significant_digit_lt (n : ℕ) (h : n ≠ 0) :
    n < increase_least_significant_digit n := by
  unfold increase_least_significant_digit
  rcases hf : (Nat.digits 10 n).findIdx? (fun d => d != 0) with _ | i
  · exfalso
    rw [List.findIdx?_eq_none_iff] at hf
    have hne : Nat.digits 10 n ≠ [] := Nat.digits_ne_nil_iff_ne_zero.mpr h
    have hmem := List.getLast_mem hne
    have hlast := Nat.getLast_digit_ne_zero 10 h
    have hzero := hf _ hmem
    simp only [bne_eq_false_iff_eq] at hzero
    exact hlast hzero
  · simp

theorem increase_least_significant_digit_zero : increase_least_significant_digit 0 = 0 := by
  unfold increase_least_significant_digit
  simp

theorem pack_up_loop_exit (is_packable : ℕ → Bool) (amount : ℕ) :
    ∀ (fuel start r : ℕ), pack_up_loop is_packable amount fuel start = some r →
      amount ≤ r ∧ is_packable r = true := by
  intro fuel
  induction fuel with
  | zero => intro start r hr; exact absurd hr (by simp [pack_up_loop])
  | succ fuel ih =>
    intro start r hr
    unfold pack_up_loop at hr
    by_cases hc : (decide (start < amount) || !is_packable start) = true
    · rw [if_pos hc] at hr
      exact ih _ _ hr
    · rw [if_neg hc] at hr
      cases hr
      simp only [Bool.or_eq_true, decide_eq_true_eq, Bool.not_eq_true', not_or,
        Bool.not_eq_false] at hc
      exact ⟨Nat.le_of_not_lt hc.1, hc.2⟩

/-- C9: whenever `pack_up` returns, its result is at least the requested amount and is
packable (the negation of the loop guard), and `increase_least_significant_digit`
strictly increases every non-zero input (and fixes zero), so each loop iteration makes
progress. -/
theorem pack_up_spec :
    (∀ (closest_packable : ℕ → ℕ) (is_packable : ℕ → Bool) (fuel amount r : ℕ),
        pack_up closest_packable is_packable fuel amount = some r →
        amount ≤ r ∧ is_packable r = true)
    ∧ (∀ n : ℕ, n ≠ 0 → n < increase_least_significant_digit n)
    ∧ increase_least_significant_digit 0 = 0 := by
  refine ⟨?_, increase_least_significant_digit_lt, increase_least_significant_digit_zero⟩
  intro closest_packable is_packable fuel amount r hr
  exact pack_up_loop_exit is_packable amount fuel (closest_packable amount) r hr

/-- Witness for C9 at concrete inputs. -/
theorem pack_up_spec_witness :
    (3 ≤ 3 ∧ (fun _ : ℕ => true) 3 = true) ∧ 2 < increase_least_significant_digit 2 :=
  ⟨pack_up_spec.1 id (fun _ => true) 1 3 3 rfl, pack_up_spec.2.1 2 (by decide)⟩

/-! ## Market matcher (`core/market/decentralized/src/matcher/matcher.rs`) -/

/-- Subscription identifiers (`SubscriptionId`), kept as plain strings. -/
abbrev SubscriptionId := String

/-- Modelled from the spec: an Offer record keyed by a `SubscriptionId` that is a
verifiable hash over the subscription contents (`db/model/offer.rs` and
`db/model/subscription_id.rs` are not under src/). `hash_of_contents` stands for the
hash recomputed from the offer's contents. -/
structure ModelOffer where
  id : SubscriptionId
  hash_of_contents : SubscriptionId
  deriving DecidableEq

/-- Modelled from the spec: `offer.validate()` verifies the hash-as-id of the offer;
a mismatch is rejected as an error. -/
def ModelOffer.validate (offer : ModelOffer) : Except String Unit :=
  if offer.hash_of_contents = offer.id then Except.ok ()
  else Except.error ("Invalid subscription id of Offer [" ++ offer.id ++ "].")

/-- `OfferState` returned by `OfferDao::get_offer_state`. -/
inductive OfferState where
  | Active (offer : ModelOffer)
  | Unsubscribed (offer : ModelOffer)
  | Expired (offer : ModelOffer)
  | NotFound
  deriving DecidableEq

/-- Modelled from the spec: the Offer store behind `OfferDao` (`db/dao` is not under
src/), as a keyed association list; keys absent from the store are `NotFound`. -/
def OfferStore := List (SubscriptionId × OfferState)

/-- Modelled from the spec: `OfferDao::get_offer_state` looks the subscription up and
returns `NotFound` when it was never present. -/
def get_offer_state : OfferStore → SubscriptionId → OfferState
  | [], _ => OfferState.NotFound
  | p :: ps, id => if p.1 = id then p.2 else get_offer_state ps id

/-- Modelled from the spec: `OfferDao::create_offer` persists the offer as `Active`. -/
def create_offer (db : OfferStore) (offer : ModelOffer) : OfferStore :=
  (offer.id, OfferState.Active offer) :: db

/-- `StopPropagateReason` from the discovery protocol. -/
inductive StopPropagateReason where
  | AlreadyExists
  | AlreadyUnsubscribed
  | Expired
  | Error (reason : String)
  deriving DecidableEq

/-- `Propagate` from the discovery protocol. -/
inductive Propagate where
  | True
  | False (reason : StopPropagateReason)
  deriving DecidableEq

/-- `on_offer_received` from matcher.rs: decide propagation from the store's state for
the offer's id; a `NotFound` offer is validated and stored, and any error inside the
block is turned into `Propagate::False(Error(reason))` by the `or_else` wrapper.
Returns the propagation decision and the store after the call. -/
def on_offer_received (db : OfferStore) (offer : ModelOffer) : Propagate × OfferStore :=
  match get_offer_state db offer.id with
  | OfferState.Active _ => (Propagate.False StopPropagateReason.AlreadyExists, db)
  | OfferState.Unsubscribed _ => (Propagate.False StopPropagateReason.AlreadyUnsubscribed, db)
  | OfferState.Expired _ => (Propagate.False StopPropagateReason.Expired, db)
  | OfferState.NotFound =>
    match offer.validate with
    | Except.ok _ => (Propagate.True, create_offer db offer)
    | Except.error e => (Propagate.False (StopPropagateReason.Error e), db)

/-- C1: the `OfferReceived` handler decides solely from the store state: `Active`,
`Unsubscribed` and `Expired` map to the corresponding stop reasons with the store
untouched; a `NotFound` offer is stored and propagated exactly when validation
succeeds, and a validation failure yields `Error(reason)` with the store untouched. -/
theorem on_offer_received_spec (db : OfferStore) (offer : ModelOffer) :
    (∀ o, get_offer_state db offer.id = OfferState.Active o →
      on_offer_received db offer = (Propagate.False StopPropagateReason.AlreadyExists, db))
    ∧ (∀ o, get_offer_state db offer.id = OfferState.Unsubscribed o →
      on_offer_received db offer = (Propagate.False StopPropagateReason.AlreadyUnsubscribed, db))
    ∧ (∀ o, get_offer_state db offer.id = OfferState.Expired o →
      on_offer_received db offer = (Propagate.False StopPropagateReason.Expired, db))
    ∧ (get_offer_state db offer.id = OfferState.NotFound →
        (offer.validate = Except.ok () →
          on_offer_received db offer = (Propagate.True, create_offer db offer))
        ∧ (∀ e, offer.validate = Except.error e →
          on_offer_received db offer = (Propagate.False (StopPropagateReason.Error e), db)))
    ∧ (((on_offer_received db offer).1 = Propagate.True
          ∧ (on_offer_received db offer).2 = create_offer db offer)
        ↔ (get_offer_state db offer.id = OfferState.NotFound
          ∧ offer.validate = Except.ok ())) := by
  refine ⟨?_, ?_, ?_, ?_, ?_⟩
  · intro o h; simp [on_offer_received, h]
  · intro o h; simp [on_offer_received, h]
  · intro o h; simp [on_offer_received, h]
  · intro h
    constructor
    · intro hv; simp [on_offer_received, h, hv]
    · intro e hv; simp [on_offer_received, h, hv]
  · constructor
    · intro hpair
      have h1 := hpair.1
      rcases hst : get_offer_state db offer.id with o | o | o | _
      · exfalso; simp [on_offer_received, hst] at h1
      · exfalso; simp [on_offer_received, hst] at h1
      · exfalso; simp [on_offer_received, hst] at h1
      · refine ⟨rfl, ?_⟩
        rcases hv : offer.validate with e | u
        · exfalso; simp [on_offer_received, hst, hv] at h1
        · cases u; rfl
    · rintro ⟨hst, hv⟩
      simp [on_offer_received, hst, hv]

/-- Witness for C1 at a concrete store and offer. -/
theorem on_offer_received_spec_witness :
    on_offer_received [] ⟨"sub-1", "sub-1"⟩
      = (Propagate.True, create_offer [] ⟨"sub-1", "sub-1"⟩) :=
  ((on_offer_received_spec [] ⟨"sub-1", "sub-1"⟩).2.2.2.1 rfl).1 rfl

/-- Database-layer failure (`ya_persistence::executor::Error`), kept abstract. -/
inductive DbError where
  | Db (msg : String)
  deriving DecidableEq

/-- Discovery broadcast failure (`DiscoveryError`), kept abstract. -/
inductive DiscoveryError where
  | Network (msg : String)
  deriving DecidableEq

/-- Modelled from the spec: `UnsubscribeError` of `OfferDao::mark_offer_as_unsubscribed`
(`db/dao` is not under src/), which distinguishes already-unsubscribed and expired
offers; any other failure is a database error. -/
inductive UnsubscribeError where
  | OfferExpired (id : SubscriptionId)
  | AlreadyUnsubscribed (id : SubscriptionId)
  | DatabaseError (e : DbError)
  deriving DecidableEq

/-- `OfferError` from matcher.rs (the constructors the handlers build). -/
inductive OfferError where
  | SaveOfferFailure (e : DbError)
  | UnsubscribeOfferFailure (e : UnsubscribeError) (id : SubscriptionId)
  | OfferNotExists (id : SubscriptionId)
  deriving DecidableEq

/-- `MatcherError` from matcher.rs. -/
inductive MatcherError where
  | OfferErr (e : OfferError)
  | InternalError (msg : String)
  deriving DecidableEq

/-- `Matcher::subscribe_offer` from matcher.rs, as a function of the outcomes of its
two effects: `OfferDao::create_offer` and `Discovery::broadcast_offer`. A store
failure is returned as `SaveOfferFailure`; a broadcast failure is logged and the
result (`let _ = ...`) discarded. -/
def subscribe_offer (create_result : Except DbError Unit)
    (broadcast_result : Except DiscoveryError Unit) : Except MatcherError Unit :=
  match create_result with
  | Except.error e => Except.error (MatcherError.OfferErr (OfferError.SaveOfferFailure e))
  | Except.ok _ =>
    match broadcast_result with
    | Except.error _ => Except.ok ()
    | Except.ok _ => Except.ok ()

/-- `Matcher::unsubscribe_offer` from matcher.rs, as a function of the outcomes of its
effects: `SubscriptionId::from_str`, `OfferDao::mark_offer_as_unsubscribed` and
`Discovery::broadcast_unsubscribe`. The broadcast runs only if the mark step
succeeded, and its failure is logged and discarded. -/
def unsubscribe_offer (parse_result : Except String SubscriptionId)
    (mark_result : SubscriptionId → Except UnsubscribeError Unit)
    (broadcast_result : Except DiscoveryError Unit) : Except MatcherError Unit :=
  match parse_result with
  | Except.error e => Except.error (MatcherError.InternalError e)
  | Except.ok subscription_id =>
    match mark_result subscription_id with
    | Except.error e =>
      Except.error (MatcherError.OfferErr (OfferError.UnsubscribeOfferFailure e subscription_id))
    | Except.ok _ =>
      match broadcast_result with
      | Except.error _ => Except.ok ()
      | Except.ok _ => Except.ok ()

/-- C7: `subscribe_offer` returns Ok whenever the local store insert succeeds,
whatever the broadcast did, and the only error it returns is the store failure;
`unsubscribe_offer` returns Ok whenever the mark step succeeds, whatever the
broadcast did, and the mark failure is the only error returned past parsing. -/
theorem subscribe_unsubscribe_broadcast_errors_swallowed :
    (∀ broadcast_result, subscribe_offer (Except.ok ()) broadcast_result = Except.ok ())
    ∧ (∀ e broadcast_result, subscribe_offer (Except.error e) broadcast_result
        = Except.error (MatcherError.OfferErr (OfferError.SaveOfferFailure e)))
    ∧ (∀ subscription_id mark_result broadcast_result,
        mark_result subscription_id = Except.ok () →
        unsubscribe_offer (Except.ok subscription_id) mark_result broadcast_result
          = Except.ok ())
    ∧ (∀ subscription_id mark_result broadcast_result e,
        mark_result subscription_id = Except.error e →
        unsubscribe_offer (Except.ok subscription_id) mark_result broadcast_result
          = Except.error
              (MatcherError.OfferErr (OfferError.UnsubscribeOfferFailure e subscription_id))) := by
  refine ⟨?_, ?_, ?_, ?_⟩
  · intro broadcast_result
    cases broadcast_result <;> rfl
  · intro e broadcast_result; rfl
  · intro subscription_id mark_result broadcast_result hmark
    cases broadcast_result <;> simp [unsubscribe_offer, hmark]
  · intro subscription_id mark_result broadcast_result e hmark
    simp [unsubscribe_offer, hmark]

/-- Witness for C7 at concrete effect outcomes. -/
theorem subscribe_unsubscribe_broadcast_errors_swallowed_witness :
    unsubscribe_offer (Except.ok "sub-2") (fun _ => Except.ok ())
      (Except.error (DiscoveryError.Network "down")) = Except.ok () :=
  subscribe_unsubscribe_broadcast_errors_swallowed.2.2.1 "sub-2" (fun _ => Except.ok ())
    (Except.error (DiscoveryError.Network "down")) rfl

/-! ## Payments engine (`agent/provider/src/payments/payments.rs`)

The actor state (`Payments`) is embedded with its `HashMap`s as association lists,
`BigDecimal` amounts as rationals and durations/timestamps as naturals. Each actix
handler becomes a pure function from the state and message to the successor state and
an explicit outcome describing the reply and any spawned background work. -/

/-- Association-list lookup (`HashMap::get`). -/
def lookupA {α : Type} : List (String × α) → String → Option α
  | [], _ => none
  | p :: ps, k => if p.1 = k then some p.2 else lookupA ps k

/-- Association-list removal (`HashMap::remove`). -/
def removeA {α : Type} : List (String × α) → String → List (String × α)
  | [], _ => []
  | p :: ps, k => if p.1 = k then removeA ps k else p :: removeA ps k

/-- Association-list update in place (mutation through `HashMap::get_mut`). -/
def setA {α : Type} (l : List (String × α)) (k : String) (v : α) : List (String × α) :=
  l.map fun p => if p.1 = k then (k, v) else p

/-- `CostInfo` from `payments/agreement.rs`: decimal cost plus usage counters. -/
structure CostInfo where
  cost : ℚ
  usage : List ℚ
  deriving DecidableEq

/-- Modelled from the spec: `ActivityPayment` phases `Running → Destroyed →
Finalized(cost)` (`payments/agreement.rs` is not under src/). -/
inductive ActivityPayment where
  | Running
  | Destroyed
  | Finalized (cost : CostInfo)
  deriving DecidableEq

/-- Modelled from the spec: the per-agreement ledger entry `AgreementPayment`
(`payments/agreement.rs` is not under src/): activities keyed by id, the update
interval, and the optional payment deadline duration. -/
structure AgreementPayment where
  activities : List (String × ActivityPayment)
  update_interval : ℕ
  payment_deadline : Option ℕ
  deriving DecidableEq

/-- Modelled from the spec: `AgreementPayment::activity_destroyed` transitions
`Running → Destroyed` and fails on any other phase or an unknown activity. -/
def AgreementPayment.activity_destroyed (a : AgreementPayment) (activity_id : String) :
    Except String AgreementPayment :=
  match lookupA a.activities activity_id with
  | some ActivityPayment.Running =>
    Except.ok { a with activities := setA a.activities activity_id ActivityPayment.Destroyed }
  | some _ => Except.error ("Can't destroy activity [" ++ activity_id ++ "].")
  | none => Except.error ("Activity [" ++ activity_id ++ "] not found.")

/-- `Invoice` from the payment API model (the fields the engine reads). -/
structure Invoice where
  invoice_id : String
  agreement_id : String
  amount : ℚ
  deriving DecidableEq

/-- The `Payments` actor state: tracked agreements, invoices awaiting payment, and
cumulative earnings. -/
structure Payments where
  agreements : List (String × AgreementPayment)
  invoices_to_pay : List Invoice
  earnings : ℚ
  deriving DecidableEq

/-- `DebitNoteInfo` from payments.rs. -/
structure DebitNoteInfo where
  agreement_id : String
  activity_id : String
  payment_deadline : Option ℕ
  deriving DecidableEq

/-- `ActivityDestroyed` message (`execution` module). -/
structure ActivityDestroyedMsg where
  agreement_id : String
  activity_id : String
  deriving DecidableEq

/-- Outcome of the `ActivityDestroyed` handler. -/
inductive ActivityDestroyedOutcome where
  | reply_err (msg : String)
  | panic
  | spawn_final_debit_note (info : DebitNoteInfo)
  deriving DecidableEq

/-- `Handler<ActivityDestroyed> for Payments`: an untracked agreement replies with an
error; otherwise `activity_destroyed(..).unwrap()` either transitions the activity to
`Destroyed` and spawns the guaranteed-delivery final-debit-note task (whose
`payment_deadline` is `now + payment_deadline` when the agreement carries one), or
panics on the `Err` it unwraps. -/
def handleActivityDestroyed (s : Payments) (now : ℕ) (msg : ActivityDestroyedMsg) :
    Payments × ActivityDestroyedOutcome :=
  match lookupA s.agreements msg.agreement_id with
  | none =>
    (s, ActivityDestroyedOutcome.reply_err
      ("Can't find activity [" ++ msg.activity_id ++ "] and agreement ["
        ++ msg.agreement_id ++ "]."))
  | some agreement =>
    match agreement.activity_destroyed msg.activity_id with
    | Except.error _ => (s, ActivityDestroyedOutcome.panic)
    | Except.ok updated =>
      ({ s with agreements := setA s.agreements msg.agreement_id updated },
       ActivityDestroyedOutcome.spawn_final_debit_note
         { agreement_id := msg.agreement_id,
           activity_id := msg.activity_id,
           payment_deadline := agreement.payment_deadline.map (fun d => now + d) })

/-- `UpdateCost` message from payments.rs. -/
structure UpdateCostMsg where
  invoice_info : DebitNoteInfo
  deriving DecidableEq

/-- Outcome of the `UpdateCost` handler. -/
inductive UpdateCostOutcome where
  | reply_err (msg : String)
  | stop_ok
  | activity_missing_err (msg : String)
  | send_debit_note_then_reschedule (update_interval : ℕ)
  deriving DecidableEq

/-- Does this `UpdateCost` outcome reply with an `Err` to the sender? -/
def updateCostOutcomeIsError : UpdateCostOutcome → Bool
  | UpdateCostOutcome.reply_err _ => true
  | UpdateCostOutcome.activity_missing_err _ => true
  | UpdateCostOutcome.stop_ok => false
  | UpdateCostOutcome.send_debit_note_then_reschedule _ => false

/-- `Handler<UpdateCost> for Payments`: an untracked agreement logs a warning and
replies `Err`; a tracked agreement with the activity not `Running` replies `Ok`
without scheduling anything (the chain stops); a `Running` activity spawns the
compute-and-send future and will reschedule after `update_interval`. The state is
never changed by this handler. -/
def handleUpdateCost (s : Payments) (msg : UpdateCostMsg) : Payments × UpdateCostOutcome :=
  match lookupA s.agreements msg.invoice_info.agreement_id with
  | none =>
    (s, UpdateCostOutcome.reply_err
      ("Not my activity - agreement [" ++ msg.invoice_info.agreement_id ++ "]."))
  | some agreement =>
    match lookupA agreement.activities msg.invoice_info.activity_id with
    | some ActivityPayment.Running =>
      (s, UpdateCostOutcome.send_debit_note_then_reschedule agreement.update_interval)
    | some _ => (s, UpdateCostOutcome.stop_ok)
    | none =>
      (s, UpdateCostOutcome.activity_missing_err
        ("We shouldn't be here. Activity [" ++ msg.invoice_info.activity_id
          ++ "], not found."))

/-- The continuation the `UpdateCost` future is mapped through: a failed
compute/issue/send is only logged, the next `UpdateCost` is scheduled after
`update_interval` either way, and the reply is `Ok`. Returns the scheduled
message with its delay, and the reply. -/
def updateCostContinuation (result : Except String CostInfo) (msg : UpdateCostMsg)
    (update_interval : ℕ) : (UpdateCostMsg × ℕ) × Except String Unit :=
  match result with
  | Except.error _ => ((msg, update_interval), Except.ok ())
  | Except.ok _ => ((msg, update_interval), Except.ok ())

/-- `AgreementClosed` message (`tasks` module). -/
structure AgreementClosedMsg where
  agreement_id : String
  send_terminate : Bool
  deriving DecidableEq

/-- Outcome of the `AgreementClosed` handler. -/
inductive AgreementClosedOutcome where
  | reply_err (msg : String)
  | spawn_invoice_sequence (agreement_id : String)
  deriving DecidableEq

/-- Whether an `AgreementClosed` outcome leads to an invoice being issued: the spawned
sequence awaits `activities_watch`, takes the cost summary, and runs the
guaranteed-delivery `IssueInvoice` loop, which retries until an invoice is issued. -/
def issuesInvoice : AgreementClosedOutcome → Bool
  | AgreementClosedOutcome.spawn_invoice_sequence _ => true
  | AgreementClosedOutcome.reply_err _ => false

/-- `Handler<AgreementClosed> for Payments`: when the agreement is in the map, spawn
the summary → `IssueInvoice` → `SendInvoice` sequence; the map itself is not changed
(the agreement is removed only when its invoice settles). An absent agreement replies
with an error. -/
def handleAgreementClosed (s : Payments) (msg : AgreementClosedMsg) :
    Payments × AgreementClosedOutcome :=
  match lookupA s.agreements msg.agreement_id with
  | some _ => (s, AgreementClosedOutcome.spawn_invoice_sequence msg.agreement_id)
  | none =>
    (s, AgreementClosedOutcome.reply_err ("Not my agreement " ++ msg.agreement_id ++ "."))

/-- `Handler<InvoiceSettled> for Payments`, after the invoice was fetched by id:
remove the agreement keyed by the invoice's `agreement_id`, drop every invoice with
this `invoice_id` from `invoices_to_pay` (`retain`), and add the amount to
`earnings`. -/
def handleInvoiceSettled (s : Payments) (invoice : Invoice) : Payments :=
  { agreements := removeA s.agreements invoice.agreement_id,
    invoices_to_pay :=
      s.invoices_to_pay.filter fun x => decide (x.invoice_id ≠ invoice.invoice_id),
    earnings := s.earnings + invoice.amount }

/-- `Handler<InvoiceSettled>` including the fetch: a failed `get_invoice` replies
`Err` and leaves the state unchanged. -/
def handleInvoiceSettledResult (s : Payments) (fetch_result : Except String Invoice) :
    Payments × Except String Unit :=
  match fetch_result with
  | Except.error e => (s, Except.error ("Cannot get invoice: " ++ e))
  | Except.ok invoice => (handleInvoiceSettled s invoice, Except.ok ())

theorem lookupA_removeA_self {α : Type} (l : List (String × α)) (k : String) :
    lookupA (removeA l k) k = none := by
  induction l with
  | nil => rfl
  | cons p ps ih =>
    by_cases hp : p.1 = k
    · simpa [removeA, hp] using ih
    · simpa [removeA, hp, lookupA] using ih

theorem lookupA_removeA_ne {α : Type} (l : List (String × α)) (k k' : String)
    (h : k' ≠ k) : lookupA (removeA l k) k' = lookupA l k' := by
  induction l with
  | nil => rfl
  | cons p ps ih =>
    by_cases hp : p.1 = k
    · have hp' : ¬ p.1 = k' := by rw [hp]; exact fun hk => h hk.symm
      simp only [removeA, if_pos hp, lookupA, if_neg hp']
      exact ih
    · by_cases hp'' : p.1 = k'
      · simp only [removeA, if_neg hp, lookupA, if_pos hp'']
      · simp only [removeA, if_neg hp, lookupA, if_neg hp'']
        exact ih

/-- C3 counterexample: with agreement `a1` tracked and its activity `x1` already
`Destroyed`, the `ActivityDestroyed` handler panics (the `.unwrap()` on the ledger
error) instead of logging the error and continuing. -/
theorem activity_destroyed_illegal_counterexample :
    (handleActivityDestroyed
      { agreements := [("a1", { activities := [("x1", ActivityPayment.Destroyed)],
                                update_interval := 5, payment_deadline := none })],
        invoices_to_pay := [], earnings := 0 }
      0 { agreement_id := "a1", activity_id := "x1" }).2
    = ActivityDestroyedOutcome.panic := by
  decide

/-- C3 amended: for every `ActivityDestroyed` whose agreement is tracked but whose
named activity is not `Running` (so the ledger transition fails), the handler panics
on the unwrapped error — the failure is not logged-and-absorbed — and the state is
left as it was. -/
theorem activity_destroyed_illegal_transition_panics (s : Payments) (now : ℕ)
    (msg : ActivityDestroyedMsg) (a : AgreementPayment) (e : String)
    (ha : lookupA s.agreements msg.agreement_id = some a)
    (he : a.activity_destroyed msg.activity_id = Except.error e) :
    handleActivityDestroyed s now msg = (s, ActivityDestroyedOutcome.panic) := by
  simp [handleActivityDestroyed, ha, he]

/-- Witness for the amended C3 at a concrete state. -/
theorem activity_destroyed_illegal_transition_panics_witness :
    handleActivityDestroyed
      { agreements := [("a1", { activities := [("x1", ActivityPayment.Destroyed)],
                                update_interval := 5, payment_deadline := none })],
        invoices_to_pay := [], earnings := 0 }
      7 { agreement_id := "a1", activity_id := "x1" }
    = ({ agreements := [("a1", { activities := [("x1", ActivityPayment.Destroyed)],
                                 update_interval := 5, payment_deadline := none })],
         invoices_to_pay := [], earnings := 0 }, ActivityDestroyedOutcome.panic) :=
  activity_destroyed_illegal_transition_panics _ 7 _
    { activities := [("x1", ActivityPayment.Destroyed)],
      update_interval := 5, payment_deadline := none }
    ("Can't destroy activity [x1].") (by decide) rfl

/-- C4 counterexample: an `UpdateCost` tick for an agreement no longer tracked is not
dropped silently — the handler replies with an `Err` (and logs a warning). -/
theorem update_cost_untracked_counterexample :
    updateCostOutcomeIsError
      (handleUpdateCost { agreements := [], invoices_to_pay := [], earnings := 0 }
        { invoice_info := { agreement_id := "a1", activity_id := "x1",
                            payment_deadline := none } }).2 = true
    ∧ (handleUpdateCost { agreements := [], invoices_to_pay := [], earnings := 0 }
        { invoice_info := { agreement_id := "a1", activity_id := "x1",
                            payment_deadline := none } }).2
      = UpdateCostOutcome.reply_err "Not my activity - agreement [a1]." := by
  constructor <;> decide

/-- C4 amended: an `UpdateCost` tick whose agreement is no longer tracked causes no
state change, no external call and no rescheduled tick, but the handler logs a
warning and replies with an `Err` (which the fire-and-forget tick delivery
discards). -/
theorem update_cost_untracked_no_state_change (s : Payments) (msg : UpdateCostMsg)
    (h : lookupA s.agreements msg.invoice_info.agreement_id = none) :
    handleUpdateCost s msg
      = (s, UpdateCostOutcome.reply_err
          ("Not my activity - agreement [" ++ msg.invoice_info.agreement_id ++ "]."))
    ∧ updateCostOutcomeIsError (handleUpdateCost s msg).2 = true := by
  constructor
  · simp [handleUpdateCost, h]
  · simp [handleUpdateCost, h, updateCostOutcomeIsError]

/-- Witness for the amended C4 at a concrete state. -/
theorem update_cost_untracked_no_state_change_witness :
    handleUpdateCost { agreements := [], invoices_to_pay := [], earnings := 0 }
      { invoice_info := { agreement_id := "a1", activity_id := "x1",
                          payment_deadline := none } }
    = ({ agreements := [], invoices_to_pay := [], earnings := 0 },
       UpdateCostOutcome.reply_err "Not my activity - agreement [a1].") :=
  (update_cost_untracked_no_state_change
    { agreements := [], invoices_to_pay := [], earnings := 0 }
    { invoice_info := { agreement_id := "a1", activity_id := "x1",
                        payment_deadline := none } } (by decide)).1

/-- C5: for a tracked agreement, an `UpdateCost` tick on an activity that is no longer
`Running` replies `Ok` and schedules nothing (the chain stops); on a `Running`
activity it spawns the compute-and-send future, and the continuation schedules the
next `UpdateCost` after `update_interval` whatever the result of computing, issuing
or sending the debit note was. The handler never changes the state. -/
theorem update_cost_running_reschedules_and_stops_otherwise (s : Payments)
    (msg : UpdateCostMsg) (a : AgreementPayment)
    (ha : lookupA s.agreements msg.invoice_info.agreement_id = some a) :
    (∀ ap, lookupA a.activities msg.invoice_info.activity_id = some ap →
      ap ≠ ActivityPayment.Running → handleUpdateCost s msg = (s, UpdateCostOutcome.stop_ok))
    ∧ (lookupA a.activities msg.invoice_info.activity_id = some ActivityPayment.Running →
        handleUpdateCost s msg
          = (s, UpdateCostOutcome.send_debit_note_then_reschedule a.update_interval)
        ∧ ∀ result, updateCostContinuation result msg a.update_interval
            = ((msg, a.update_interval), Except.ok ())) := by
  constructor
  · intro ap hap hne
    cases ap with
    | Running => exact absurd rfl hne
    | Destroyed => simp [handleUpdateCost, ha, hap]
    | Finalized cost => simp [handleUpdateCost, ha, hap]
  · intro hap
    refine ⟨by simp [handleUpdateCost, ha, hap], ?_⟩
    intro result
    cases result <;> rfl

/-- Witness for C5 at a concrete state with a `Destroyed` activity. -/
theorem update_cost_running_reschedules_and_stops_otherwise_witness :
    handleUpdateCost
      { agreements := [("a1", { activities := [("x1", ActivityPayment.Destroyed)],
                                update_interval := 5, payment_deadline := none })],
        invoices_to_pay := [], earnings := 0 }
      { invoice_info := { agreement_id := "a1", activity_id := "x1",
                          payment_deadline := none } }
    = ({ agreements := [("a1", { activities := [("x1", ActivityPayment.Destroyed)],
                                 update_interval := 5, payment_deadline := none })],
         invoices_to_pay := [], earnings := 0 }, UpdateCostOutcome.stop_ok) :=
  (update_cost_running_reschedules_and_stops_otherwise _ _
    { activities := [("x1", ActivityPayment.Destroyed)],
      update_interval := 5, payment_deadline := none } (by decide)).1
    ActivityPayment.Destroyed (by decide) (by decide)

/-- C2 counterexample: with agreement `a1` still tracked, a second `AgreementClosed`
after a first one is not a no-op: the entry check still finds the agreement (closing
does not remove or mark it) and a second summary → issue → send sequence is spawned,
issuing a second invoice. -/
theorem agreement_closed_duplicate_counterexample :
    issuesInvoice
      (handleAgreementClosed
        (handleAgreementClosed
          { agreements := [("a1", { activities := [], update_interval := 5,
                                    payment_deadline := none })],
            invoices_to_pay := [], earnings := 0 }
          { agreement_id := "a1", send_terminate := true }).1
        { agreement_id := "a1", send_terminate := true }).2 = true
    ∧ (handleAgreementClosed
        (handleAgreementClosed
          { agreements := [("a1", { activities := [], update_interval := 5,
                                    payment_deadline := none })],
            invoices_to_pay := [], earnings := 0 }
          { agreement_id := "a1", send_terminate := true }).1
        { agreement_id := "a1", send_terminate := true }).2
      = AgreementClosedOutcome.spawn_invoice_sequence "a1" := by
  constructor <;> decide

/-- C2 amended: a duplicate `AgreementClosed` is a no-op only once the agreement has
been removed from the map (which happens at `InvoiceSettled`, not at close): then the
entry check replies `Err` and no invoice sequence starts. While the agreement is
still tracked, every `AgreementClosed` — duplicate or not — spawns another
summary/issue/send sequence and issues an invoice; the handler itself never changes
the map. -/
theorem agreement_closed_idempotent_only_after_settlement (s : Payments)
    (msg : AgreementClosedMsg) :
    (lookupA s.agreements msg.agreement_id = none →
      handleAgreementClosed s msg
        = (s, AgreementClosedOutcome.reply_err ("Not my agreement " ++ msg.agreement_id ++ "."))
      ∧ issuesInvoice (handleAgreementClosed s msg).2 = false)
    ∧ (∀ a, lookupA s.agreements msg.agreement_id = some a →
      handleAgreementClosed s msg
        = (s, AgreementClosedOutcome.spawn_invoice_sequence msg.agreement_id)
      ∧ issuesInvoice (handleAgreementClosed s msg).2 = true) := by
  constructor
  · intro h
    constructor
    · simp [handleAgreementClosed, h]
    · simp [handleAgreementClosed, h, issuesInvoice]
  · intro a h
    constructor
    · simp [handleAgreementClosed, h]
    · simp [handleAgreementClosed, h, issuesInvoice]

/-- Witness for the amended C2 at a concrete state. -/
theorem agreement_closed_idempotent_only_after_settlement_witness :
    handleAgreementClosed { agreements := [], invoices_to_pay := [], earnings := 0 }
      { agreement_id := "a1", send_terminate := false }
    = ({ agreements := [], invoices_to_pay := [], earnings := 0 },
       AgreementClosedOutcome.reply_err "Not my agreement a1.") :=
  ((agreement_closed_idempotent_only_after_settlement
    { agreements := [], invoices_to_pay := [], earnings := 0 }
    { agreement_id := "a1", send_terminate := false }).1 (by decide)).1

/-- C8: settling an invoice performs exactly the terminal transition: the agreement
keyed by the invoice's `agreement_id` disappears from the map while all other keys
are untouched, an invoice stays in `invoices_to_pay` exactly when its id differs from
the settled one, earnings grow by the amount — and a failed fetch changes nothing. -/
theorem invoice_settled_terminal_transition (s : Payments) (invoice : Invoice) :
    lookupA (handleInvoiceSettled s invoice).agreements invoice.agreement_id = none
    ∧ (∀ k, k ≠ invoice.agreement_id →
        lookupA (handleInvoiceSettled s invoice).agreements k = lookupA s.agreements k)
    ∧ (∀ i, i ∈ (handleInvoiceSettled s invoice).invoices_to_pay ↔
        (i ∈ s.invoices_to_pay ∧ i.invoice_id ≠ invoice.invoice_id))
    ∧ (handleInvoiceSettled s invoice).earnings = s.earnings + invoice.amount
    ∧ (∀ e, handleInvoiceSettledResult s (Except.error e)
        = (s, Except.error ("Cannot get invoice: " ++ e))) := by
  refine ⟨?_, ?_, ?_, rfl, ?_⟩
  · exact lookupA_removeA_self s.agreements invoice.agreement_id
  · intro k hk
    exact lookupA_removeA_ne s.agreements invoice.agreement_id k hk
  · intro i
    simp [handleInvoiceSettled, List.mem_filter]
  · intro e
    rfl

/-- Witness for C8 at a concrete state. -/
theorem invoice_settled_terminal_transition_witness :
    lookupA
      (handleInvoiceSettled
        { agreements := [("a1", { activities := [], update_interval := 5,
                                  payment_deadline := none })],
          invoices_to_pay := [], earnings := 0 }
        { invoice_id := "i1", agreement_id := "a1", amount := 12 }).agreements "b1"
    = lookupA
        [("a1", ({ activities := [], update_interval := 5,
                   payment_deadline := none } : AgreementPayment))] "b1" :=
  (invoice_settled_terminal_transition
    { agreements := [("a1", { activities := [], update_interval := 5,
                              payment_deadline := none })],
      invoices_to_pay := [], earnings := 0 }
    { invoice_id := "i1", agreement_id := "a1", amount := 12 }).2.1 "b1" (by decide)

/-! ## Event pollers (`check_invoice_events`, `check_debit_notes_events`) -/

/-- `InvoiceEventType` variants the invoice poller dispatches on. -/
inductive InvoiceEventType where
  | InvoiceAcceptedEvent
  | InvoiceSettledEvent
  | OtherEvent (tag : String)
  deriving DecidableEq

/-- An invoice event with its timestamp (`event_date`). -/
structure InvoiceEvent where
  invoice_id : String
  event_type : InvoiceEventType
  event_date : ℤ
  deriving DecidableEq

/-- `DebitNoteEventType` variants the debit-note poller dispatches on. -/
inductive DebitNoteEventType where
  | DebitNoteAcceptedEvent
  | OtherEvent (tag : String)
  deriving DecidableEq

/-- A debit-note event with its timestamp (`event_date`). -/
structure DebitNoteEvent where
  debit_note_id : String
  event_type : DebitNoteEventType
  event_date : ℤ
  deriving DecidableEq

/-- Messages `check_invoice_events` sends to the `Payments` actor. -/
inductive PaymentsDispatch where
  | invoiceAccepted (invoice_id : String)
  | invoiceSettled (invoice_id : String)
  deriving DecidableEq

/-- Per-event dispatch of the invoice poller: accepted and settled events are
forwarded, any other variant is only warned about (the watermark still advances). -/
def invoiceEventDispatch (e : InvoiceEvent) : Option PaymentsDispatch :=
  match e.event_type with
  | InvoiceEventType.InvoiceAcceptedEvent => some (PaymentsDispatch.invoiceAccepted e.invoice_id)
  | InvoiceEventType.InvoiceSettledEvent => some (PaymentsDispatch.invoiceSettled e.invoice_id)
  | InvoiceEventType.OtherEvent _ => none

/-- One iteration of the `check_invoice_events` loop, as a function of the RPC result:
an error logs and sleeps with an empty batch; otherwise every event is dispatched and
`after_timestamp` is overwritten with each event's `event_date` in turn. Returns the
new watermark and the dispatched messages. -/
def check_invoice_events_step (after_timestamp : ℤ)
    (poll : Except String (List InvoiceEvent)) : ℤ × List PaymentsDispatch :=
  match poll with
  | Except.error _ => (after_timestamp, [])
  | Except.ok events =>
    (events.foldl (fun _ e => e.event_date) after_timestamp,
     events.filterMap invoiceEventDispatch)

/-- One iteration of the `check_debit_notes_events` loop: an accepted debit note sends
`StopTracking` with its id to the deadline checker; `lather_than` is overwritten with
each event's `event_date` in turn. -/
def check_debit_note_events_step (lather_than : ℤ)
    (poll : Except String (List DebitNoteEvent)) : ℤ × List String :=
  match poll with
  | Except.error _ => (lather_than, [])
  | Except.ok events =>
    (events.foldl (fun _ e => e.event_date) lather_than,
     events.filterMap fun e =>
       match e.event_type with
       | DebitNoteEventType.DebitNoteAcceptedEvent => some e.debit_note_id
       | DebitNoteEventType.OtherEvent _ => none)

/-- The batch of events one poll iteration processes; an RPC error yields the empty
batch. -/
def batchOf {α : Type} : Except String (List α) → List α
  | Except.ok events => events
  | Except.error _ => []

/-- The watermark after one poll iteration (common shape of both pollers). -/
def stepWatermark {α : Type} (date : α → ℤ) (w : ℤ) (poll : Except String (List α)) : ℤ :=
  (batchOf poll).foldl (fun _ e => date e) w

/-- The watermark passed to poll iteration `i` (after the first `i` iterations). -/
def watermarkAt {α : Type} (date : α → ℤ) (w0 : ℤ) (polls : List (Except String (List α)))
    (i : ℕ) : ℤ :=
  (polls.take i).foldl (stepWatermark date) w0

/-- The interface contract of `get_*_events(after, ..)`: each iteration's batch holds
only events strictly after the watermark passed to that poll. -/
def validPolls {α : Type} (date : α → ℤ) : ℤ → List (Except String (List α)) → Bool
  | _, [] => true
  | w, p :: ps =>
    (batchOf p).all (fun e => decide (w < date e)) && validPolls date (stepWatermark date w p) ps

theorem foldl_overwrite_eq_getLast {α : Type} (date : α → ℤ) :
    ∀ (l : List α) (w : ℤ),
      l.foldl (fun _ e => date e) w = (l.getLast?.map date).getD w := by
  intro l
  induction l with
  | nil => intro w; rfl
  | cons e es ih =>
    intro w
    cases es with
    | nil => rfl
    | cons e2 es2 =>
      rcases hlast : (e2 :: es2).getLast? with _ | x
      · exact absurd hlast (by simp)
      · rw [List.foldl_cons, ih, List.getLast?_cons_cons, hlast]
        rfl

theorem mem_of_getLast?_eq {α : Type} {l : List α} {x : α} (h : l.getLast? = some x) :
    x ∈ l := by
  rcases List.getLast?_eq_some_iff.mp h with ⟨l', rfl⟩
  simp

theorem stepWatermark_le {α : Type} (date : α → ℤ) (w : ℤ)
    (p : Except String (List α)) (h : ∀ e ∈ batchOf p, w < date e) :
    w ≤ stepWatermark date w p := by
  unfold stepWatermark
  rw [foldl_overwrite_eq_getLast]
  rcases hlast : (batchOf p).getLast? with _ | x
  · simp
  · exact le_of_lt (h x (mem_of_getLast?_eq hlast))

theorem validPolls_getElem {α : Type} (date : α → ℤ) :
    ∀ (polls : List (Except String (List α))) (w : ℤ),
      validPolls date w polls = true →
      ∀ (i : ℕ) (p : Except String (List α)), polls[i]? = some p →
        ∀ e ∈ batchOf p, watermarkAt date w polls i < date e := by
  intro polls
  induction polls with
  | nil => intro w _ i p hp; simp at hp
  | cons q qs ih =>
    intro w hv i p hp
    rw [validPolls, Bool.and_eq_true] at hv
    cases i with
    | zero =>
      rw [List.getElem?_cons_zero] at hp
      cases hp
      intro e he
      have := (List.all_eq_true.mp hv.1) e he
      simpa [watermarkAt] using of_decide_eq_true this
    | succ i =>
      rw [List.getElem?_cons_succ] at hp
      intro e he
      have hrec := ih (stepWatermark date w q) hv.2 i p hp e he
      simpa [watermarkAt, List.take_succ_cons] using hrec

theorem watermarkAt_succ_some {α : Type} (date : α → ℤ) (w0 : ℤ)
    (polls : List (Except String (List α))) (i : ℕ) (p : Except String (List α))
    (hp : polls[i]? = some p) :
    watermarkAt date w0 polls (i + 1) = stepWatermark date (watermarkAt date w0 polls i) p := by
  unfold watermarkAt
  rw [List.take_succ, hp]
  simp [List.foldl_append]

theorem watermarkAt_succ_none {α : Type} (date : α → ℤ) (w0 : ℤ)
    (polls : List (Except String (List α))) (i : ℕ) (hp : polls[i]? = none) :
    watermarkAt date w0 polls (i + 1) = watermarkAt date w0 polls i := by
  unfold watermarkAt
  rw [List.take_succ, hp]
  simp

theorem watermarkAt_mono {α : Type} (date : α → ℤ) (w0 : ℤ)
    (polls : List (Except String (List α))) (hv : validPolls date w0 polls = true) :
    ∀ i j, i ≤ j → watermarkAt date w0 polls i ≤ watermarkAt date w0 polls j := by
  have hstep : ∀ i, watermarkAt date w0 polls i ≤ watermarkAt date w0 polls (i + 1) := by
    intro i
    rcases hp : polls[i]? with _ | p
    · rw [watermarkAt_succ_none date w0 polls i hp]
    · rw [watermarkAt_succ_some date w0 polls i p hp]
      exact stepWatermark_le date _ p (validPolls_getElem date polls w0 hv i p hp)
  intro i j hij
  induction j, hij using Nat.le_induction with
  | base => exact le_refl _
  | succ j hij ihj => exact le_trans ihj (hstep j)

theorem watermark_poller_properties {α : Type} (date : α → ℤ) (w0 : ℤ)
    (polls : List (Except String (List α))) (hv : validPolls date w0 polls = true) :
    (∀ i j, i ≤ j → watermarkAt date w0 polls i ≤ watermarkAt date w0 polls j)
    ∧ (∀ (i : ℕ) (events : List α) (x : α), polls[i]? = some (Except.ok events) →
        events.getLast? = some x → watermarkAt date w0 polls (i + 1) = date x)
    ∧ (∀ (i : ℕ) (e : String), polls[i]? = some (Except.error e) →
        watermarkAt date w0 polls (i + 1) = watermarkAt date w0 polls i)
    ∧ (∀ (i j : ℕ) (pi pj : Except String (List α)), i < j →
        polls[i]? = some pi → polls[j]? = some pj →
        ∀ e ∈ batchOf pi, date e < watermarkAt date w0 polls (i + 1) → e ∉ batchOf pj) := by
  refine ⟨watermarkAt_mono date w0 polls hv, ?_, ?_, ?_⟩
  · intro i events x hp hx
    rw [watermarkAt_succ_some date w0 polls i _ hp]
    unfold stepWatermark
    rw [foldl_overwrite_eq_getLast]
    simp [batchOf, hx]
  · intro i e hp
    rw [watermarkAt_succ_some date w0 polls i _ hp]
    rfl
  · intro i j pi pj hij hpi hpj e hei hlt hej
    have h1 : watermarkAt date w0 polls j < date e :=
      validPolls_getElem date polls w0 hv j pj hpj e hej
    have h2 : watermarkAt date w0 polls (i + 1) ≤ watermarkAt date w0 polls j :=
      watermarkAt_mono date w0 polls hv (i + 1) j hij
    linarith

/-- C6: for both pollers the per-iteration watermark update of the embedded step
function is `stepWatermark`, and — whenever each batch holds only events strictly
after the watermark passed to its poll — the watermark is non-decreasing across
iterations, a successful batch advances it to the last processed event's timestamp,
an RPC error leaves it unchanged, and an event delivered strictly before the
watermark is never delivered again by a later iteration. -/
theorem poller_watermark_monotone_no_duplicates :
    (∀ (w : ℤ) (poll : Except String (List InvoiceEvent)),
      (check_invoice_events_step w poll).1 = stepWatermark InvoiceEvent.event_date w poll)
    ∧ (∀ (w : ℤ) (poll : Except String (List DebitNoteEvent)),
      (check_debit_note_events_step w poll).1 = stepWatermark DebitNoteEvent.event_date w poll)
    ∧ (∀ (w0 : ℤ) (polls : List (Except String (List InvoiceEvent))),
      validPolls InvoiceEvent.event_date w0 polls = true →
      (∀ i j, i ≤ j → watermarkAt InvoiceEvent.event_date w0 polls i
          ≤ watermarkAt InvoiceEvent.event_date w0 polls j)
      ∧ (∀ (i : ℕ) (events : List InvoiceEvent) (x : InvoiceEvent),
          polls[i]? = some (Except.ok events) → events.getLast? = some x →
          watermarkAt InvoiceEvent.event_date w0 polls (i + 1) = x.event_date)
      ∧ (∀ (i : ℕ) (e : String), polls[i]? = some (Except.error e) →
          watermarkAt InvoiceEvent.event_date w0 polls (i + 1)
            = watermarkAt InvoiceEvent.event_date w0 polls i)
      ∧ (∀ (i j : ℕ) (pi pj : Except String (List InvoiceEvent)), i < j →
          polls[i]? = some pi → polls[j]? = some pj →
          ∀ e ∈ batchOf pi,
            e.event_date < watermarkAt InvoiceEvent.event_date w0 polls (i + 1) →
            e ∉ batchOf pj))
    ∧ (∀ (w0 : ℤ) (polls : List (Except String (List DebitNoteEvent))),
      validPolls DebitNoteEvent.event_date w0 polls = true →
      (∀ i j, i ≤ j → watermarkAt DebitNoteEvent.event_date w0 polls i
          ≤ watermarkAt DebitNoteEvent.event_date w0 polls j)
      ∧ (∀ (i : ℕ) (events : List DebitNoteEvent) (x : DebitNoteEvent),
          polls[i]? = some (Except.ok events) → events.getLast? = some x →
          watermarkAt DebitNoteEvent.event_date w0 polls (i + 1) = x.event_date)
      ∧ (∀ (i : ℕ) (e : String), polls[i]? = some (Except.error e) →
          watermarkAt DebitNoteEvent.event_date w0 polls (i + 1)
            = watermarkAt DebitNoteEvent.event_date w0 polls i)
      ∧ (∀ (i j : ℕ) (pi pj : Except String (List DebitNoteEvent)), i < j →
          polls[i]? = some pi → polls[j]? = some pj →
          ∀ e ∈ batchOf pi,
            e.event_date < watermarkAt DebitNoteEvent.event_date w0 polls (i + 1) →
            e ∉ batchOf pj)) := by
  refine ⟨?_, ?_, ?_, ?_⟩
  · intro w poll; cases poll <;> rfl
  · intro w poll; cases poll <;> rfl
  · intro w0 polls hv
    exact watermark_poller_properties InvoiceEvent.event_date w0 polls hv
  · intro w0 polls hv
    exact watermark_poller_properties DebitNoteEvent.event_date w0 polls hv

/-- Witness for C6 on a concrete poll trace: a batch at date 1, an RPC error, then a
batch at date 5. -/
theorem poller_watermark_monotone_no_duplicates_witness :
    watermarkAt InvoiceEvent.event_date 0
      [Except.ok [{ invoice_id := "i1", event_type := InvoiceEventType.InvoiceSettledEvent,
                    event_date := 1 }],
       Except.error "rpc",
       Except.ok [{ invoice_id := "i2", event_type := InvoiceEventType.InvoiceAcceptedEvent,
                    event_date := 5 }]] 1
    ≤ watermarkAt InvoiceEvent.event_date 0
      [Except.ok [{ invoice_id := "i1", event_type := InvoiceEventType.InvoiceSettledEvent,
                    event_date := 1 }],
       Except.error "rpc",
       Except.ok [{ invoice_id := "i2", event_type := InvoiceEventType.InvoiceAcceptedEvent,
                    event_date := 5 }]] 3 :=
  ((poller_watermark_monotone_no_duplicates.2.2.1 0
    [Except.ok [{ invoice_id := "i1", event_type := InvoiceEventType.InvoiceSettledEvent,
                  event_date := 1 }],
     Except.error "rpc",
     Except.ok [{ invoice_id := "i2", event_type := InvoiceEventType.InvoiceAcceptedEvent,
                  event_date := 5 }]] (by decide)).1) 1 3 (by decide)

end Yagna
